import Mathlib

/-
Verification of the multimodal RAG backend (src/backend/main.py) against its
natural-language specification.

The Python source is shallowly embedded: each relevant function is translated
into an executable Lean definition over explicit data (lists, strings, Option,
Except), and the spec claims are settled as theorems about those definitions.
External collaborators (the partitioning library, the embedding model, the
generative model, FAISS, the filesystem) appear as explicit parameters: a
similarity search result is a list of summary documents, a model call outcome
is an Except value, the persisted stores are association lists.
-/

/-! ## Element data model

An indexed element, as built by build_multimodal_elements_streaming: a dict
with keys doc_id, type, original, source, page, chunk_index, summary.  The
kind tag mirrors the string field "type" of the Python dict. -/

inductive EKind where
  | text
  | table
  | image
deriving DecidableEq, BEq, Repr

structure PElem where
  docId : String
  kind : EKind
  original : String
  page : Option Nat
  chunkIndex : Option Nat
  summary : String
deriving DecidableEq, Repr

/-! ## C1 — concurrent summarization reassembly

In build_multimodal_elements_streaming (src/backend/main.py lines 448-472),
the summarization tasks for all elements are launched in submission order
(images ++ tables ++ texts) and harvested with asyncio.as_completed, so the
summaries list is in completion order; the results are then assigned back to
the elements positionally (summaries[summary_idx] while walking the elements
in submission order).  A completion order is a permutation of the submission
indices; as_completed_summaries gives the harvested summary list for that
order, and assign_summaries pairs each element (by submission position) with
the summary at its position. -/

def as_completed_summaries (contents : List String) (f : String → String)
    (order : List Nat) : List String :=
  order.map (fun j => f (contents.getD j ("")))

def assign_summaries (contents : List String) (summaries : List String) :
    List (String × String) :=
  contents.zip summaries

/-- Claim C1: for every completion order of the concurrent summarization
tasks, each element carries the summary computed from its own content, the
association being restored by the element id rather than by position in
completion order.  The code violates this: with two elements and the
completion order that finishes the second task first, each element receives
the summary of the other element, because the summaries list is in completion
order while the assignment is positional in submission order.  This theorem
evaluates the embedded code at that failing input. -/
theorem completion_order_misassigns_summaries :
    List.Perm [1, 0] [0, 1]
    ∧ assign_summaries ["alpha", "beta"]
        (as_completed_summaries ["alpha", "beta"]
          (fun s => "summary of " ++ s) [1, 0])
      = [("alpha", "summary of beta"), ("beta", "summary of alpha")]
    ∧ assign_summaries ["alpha", "beta"]
        (as_completed_summaries ["alpha", "beta"]
          (fun s => "summary of " ++ s) [1, 0])
      ≠ [("alpha", "summary of alpha"), ("beta", "summary of beta")] := by
  refine ⟨by decide, rfl, ?_⟩
  decide

/-! ## C8 — PDF image extraction size filter

pdf_page_images (src/backend/main.py lines 261-305) walks one page at a time;
the embedding below models a single page.  A raster image carries its PyMuPDF
pixmap component count n (4 means an alpha channel is present), its pixel
size, and an abstract payload standing for its pixels (carried through the
RGB conversion unchanged).  A vector drawing carries its rendered rectangle
size.  The raster filter in the source is

  if pix.n < 4 and (pix.width < 100 or pix.height < 100): continue

and the drawing filter is

  if rect.width < 100 or rect.height < 100: continue

Every kept image is pushed through pil_to_data_uri, which wraps the PNG bytes
of the image into a base64 data URI. -/

structure RasterImg where
  n : Nat
  width : Nat
  height : Nat
  payload : String
deriving DecidableEq, Repr

structure Drawing where
  width : Nat
  height : Nat
  payload : String
deriving DecidableEq, Repr

def pil_to_data_uri (pngB64 : String) : String :=
  "data:image/png;base64," ++ pngB64

def page_images (rasters : List RasterImg) (drawings : List Drawing) :
    List String :=
  (rasters.filter
      (fun p => !(decide (p.n < 4) && (decide (p.width < 100) || decide (p.height < 100))))).map
    (fun p => pil_to_data_uri p.payload)
  ++ (drawings.filter
      (fun d => !(decide (d.width < 100) || decide (d.height < 100)))).map
    (fun d => pil_to_data_uri d.payload)

/-- Claim C8: extraction discards every raster image and every vector drawing
whose rendered width or height is below 100 px, and every surviving image is
normalized to a PNG data URI.  The code evaluated at the failing input: a
10 by 10 raster image with 4 pixmap components (an RGBA icon) is NOT
discarded — the size filter is guarded by the component count (pix.n < 4) —
while the same 10 by 10 image with 3 components, and a 10 by 10 vector
drawing, are discarded as the claim states. -/
theorem small_rgba_raster_survives :
    page_images [{ n := 4, width := 10, height := 10, payload := "iconpng" }] []
      = ["data:image/png;base64,iconpng"]
    ∧ page_images [{ n := 3, width := 10, height := 10, payload := "iconpng" }] [] = []
    ∧ page_images [] [{ width := 10, height := 10, payload := "iconpng" }] = [] := by
  exact ⟨rfl, rfl, rfl⟩

/-! ## Dual Store — Similarity Index and Content Store

The Similarity Index (FAISS vectorstore) holds summary documents; each entry
is modeled by its metadata doc_id (none for the bootstrap placeholder, which
carries no doc_id metadata) together with its page content (the summary
text).  The Content Store (LocalFileStore docstore) maps a doc_id to the
serialized element.  get_vectorstore (src/backend/main.py lines 197-208)
bootstraps a fresh index with one placeholder document "initial empty doc"
when none exists on disk. -/

structure Stores where
  index : List (Option String × String)
  store : List (String × PElem)
deriving DecidableEq, Repr

def freshStores : Stores :=
  { index := [(none, "initial empty doc")], store := [] }

/-- The element ids present in the Similarity Index (placeholder entries
carry no id). -/
def indexIds (s : Stores) : List String :=
  s.index.filterMap Prod.fst

/-- The keys of the Content Store. -/
def storeKeys (s : Stores) : List String :=
  s.store.map Prod.fst

/-- One iteration of the indexing loop of index_file_streaming
(src/backend/main.py lines 500-512): docstore.mset of the serialized element
under its doc_id, then vectorstore.add_documents of a summary document whose
metadata carries the same doc_id. -/
def writeElement (s : Stores) (e : PElem) : Stores :=
  { index := s.index ++ [(some e.docId, e.summary)],
    store := s.store ++ [(e.docId, e)] }

/-- The whole indexing loop over every processed element. -/
def indexElements (s : Stores) (elems : List PElem) : Stores :=
  elems.foldl writeElement s

/-- The no-orphans invariant between the two stores: every element id in the
Similarity Index has exactly one Content Store entry, and every Content Store
key has a Similarity Index entry. -/
def storesConsistent (s : Stores) : Prop :=
  (∀ k ∈ indexIds s, (storeKeys s).count k = 1)
  ∧ (∀ k ∈ storeKeys s, k ∈ indexIds s)

lemma indexIds_writeElement (s : Stores) (e : PElem) :
    indexIds (writeElement s e) = indexIds s ++ [e.docId] := by
  simp [indexIds, writeElement]

lemma storeKeys_writeElement (s : Stores) (e : PElem) :
    storeKeys (writeElement s e) = storeKeys s ++ [e.docId] := by
  simp [storeKeys, writeElement]

lemma indexIds_indexElements (elems : List PElem) :
    ∀ s : Stores, indexIds (indexElements s elems)
      = indexIds s ++ elems.map PElem.docId := by
  induction elems with
  | nil => intro s; simp [indexElements]
  | cons e rest ih =>
      intro s
      have h := ih (writeElement s e)
      simp [indexElements] at h ⊢
      rw [h, indexIds_writeElement]
      simp

lemma storeKeys_indexElements (elems : List PElem) :
    ∀ s : Stores, storeKeys (indexElements s elems)
      = storeKeys s ++ elems.map PElem.docId := by
  induction elems with
  | nil => intro s; simp [indexElements]
  | cons e rest ih =>
      intro s
      have h := ih (writeElement s e)
      simp [indexElements] at h ⊢
      rw [h, storeKeys_writeElement]
      simp

/-- Claim C2: for every document whose ingestion reaches the complete event,
every element id present in the Similarity Index has exactly one Content
Store entry with the same id, and every Content Store entry written by that
ingestion has a corresponding Similarity Index entry (no orphans in either
direction).  The hypotheses say the ingestion starts from consistent stores
(in particular the bootstrapped fresh index), that the freshly generated
uuid4 doc_ids of the processed elements are distinct, and that they do not
collide with already stored keys. -/
theorem indexing_no_orphans (s : Stores) (elems : List PElem)
    (hs : storesConsistent s)
    (hnodup : (elems.map PElem.docId).Nodup)
    (hfresh : ∀ e ∈ elems, e.docId ∉ storeKeys s) :
    storesConsistent (indexElements s elems) := by
  have hidx := indexIds_indexElements elems s
  have hkeys := storeKeys_indexElements elems s
  constructor
  · intro k hk
    rw [hidx] at hk
    rw [hkeys]
    rcases List.mem_append.mp hk with hold | hnew
    · have hcount := hs.1 k hold
      have hkstore : k ∈ storeKeys s := by
        have : (storeKeys s).count k ≠ 0 := by omega
        exact List.count_pos_iff.mp (by omega)
      have hknotnew : k ∉ elems.map PElem.docId := by
        intro hmem
        rcases List.mem_map.mp hmem with ⟨e, he, hedoc⟩
        exact hfresh e he (hedoc ▸ hkstore)
      rw [List.count_append, hcount, List.count_eq_zero.mpr hknotnew]
    · have hknotold : k ∉ storeKeys s := by
        rcases List.mem_map.mp hnew with ⟨e, he, hedoc⟩
        exact hedoc ▸ hfresh e he
      rw [List.count_append, List.count_eq_zero.mpr hknotold,
        List.count_eq_one_of_mem hnodup hnew]
  · intro k hk
    rw [hkeys] at hk
    rw [hidx]
    rcases List.mem_append.mp hk with hold | hnew
    · exact List.mem_append.mpr (Or.inl (hs.2 k hold))
    · exact List.mem_append.mpr (Or.inr hnew)

def elemAlpha : PElem :=
  { docId := "id-alpha", kind := EKind.text, original := "alpha text",
    page := some 1, chunkIndex := some 0, summary := "alpha text" }

def elemBeta : PElem :=
  { docId := "id-beta", kind := EKind.image, original := "data:image/png;base64,beta",
    page := some 2, chunkIndex := none, summary := "an image of beta" }

/-- Witness for C2: ingesting two concrete elements into the bootstrapped
fresh stores yields consistent stores. -/
theorem indexing_no_orphans_witness :
    storesConsistent (indexElements freshStores [elemAlpha, elemBeta]) := by
  refine indexing_no_orphans freshStores [elemAlpha, elemBeta] ?_ ?_ ?_
  · constructor
    · intro k hk
      simp [indexIds, freshStores] at hk
    · intro k hk
      simp [storeKeys, freshStores] at hk
  · simp [elemAlpha, elemBeta]
  · intro e _
    simp [storeKeys, freshStores]

/-! ## Document manifest — C6 and C9

index_file_streaming (src/backend/main.py lines 517-558) updates the
documents.json manifest: it looks for the first record whose name equals the
uploaded display name; on a hit it rewrites that record in place (uploadedAt,
stats, preview), otherwise it appends a brand-new record carrying the freshly
generated upload id and path.  It then creates a new conversation record
whose document_id is the freshly generated upload id in either case. -/

structure Stats where
  images : Nat
  tables : Nat
  texts : Nat
deriving DecidableEq, Repr

structure DocRecord where
  id : String
  name : String
  path : String
  uploadedAt : Nat
  preview : String
  stats : Stats
deriving DecidableEq, Repr

def indexedPreview (s : Stats) : String :=
  "Indexed with " ++ toString s.texts ++ " texts, " ++ toString s.images
    ++ " images, " ++ toString s.tables ++ " tables."

def reindexedPreview (s : Stats) : String :=
  "Re-indexed with " ++ toString s.texts ++ " texts, " ++ toString s.images
    ++ " images, " ++ toString s.tables ++ " tables."

/-- The manifest update of index_file_streaming: the first record matching
the display name is updated in place, otherwise a new record is appended.
Returns the new manifest together with the record reported in the complete
event (new_document_record). -/
def updateManifest (documents : List DocRecord) (docId name path : String)
    (now : Nat) (stats : Stats) : List DocRecord × DocRecord :=
  match documents with
  | [] =>
      let d : DocRecord :=
        { id := docId, name := name, path := path, uploadedAt := now,
          preview := indexedPreview stats, stats := stats }
      ([d], d)
  | doc :: rest =>
      if doc.name = name then
        let d := { doc with uploadedAt := now, stats := stats,
                            preview := reindexedPreview stats }
        (d :: rest, d)
      else
        let r := updateManifest rest docId name path now stats
        (doc :: r.1, r.2)

lemma updateManifest_of_not_mem (docId name path : String) (now : Nat)
    (stats : Stats) :
    ∀ documents : List DocRecord, (∀ d ∈ documents, d.name ≠ name) →
      updateManifest documents docId name path now stats
        = (documents ++
            [{ id := docId, name := name, path := path, uploadedAt := now,
               preview := indexedPreview stats, stats := stats }],
           { id := docId, name := name, path := path, uploadedAt := now,
             preview := indexedPreview stats, stats := stats }) := by
  intro documents
  induction documents with
  | nil => intro _; simp [updateManifest]
  | cons doc rest ih =>
      intro h
      have hdoc : doc.name ≠ name := h doc (by simp)
      have hrest := ih (fun d hd => h d (by simp [hd]))
      simp [updateManifest, hdoc, hrest]

lemma updateManifest_of_mem (docId name path : String) (now : Nat)
    (stats : Stats) :
    ∀ documents : List DocRecord, (∃ d ∈ documents, d.name = name) →
      (updateManifest documents docId name path now stats).1.length
          = documents.length
      ∧ (updateManifest documents docId name path now stats).1.map DocRecord.id
          = documents.map DocRecord.id
      ∧ (updateManifest documents docId name path now stats).1.map DocRecord.name
          = documents.map DocRecord.name
      ∧ (updateManifest documents docId name path now stats).1.map DocRecord.path
          = documents.map DocRecord.path := by
  intro documents
  induction documents with
  | nil => intro h; simp at h
  | cons doc rest ih =>
      intro h
      by_cases hdoc : doc.name = name
      · simp [updateManifest, hdoc]
      · have hrest : ∃ d ∈ rest, d.name = name := by
          rcases h with ⟨d, hd, hdn⟩
          rcases List.mem_cons.mp hd with rfl | hdrest
          · exact absurd hdn hdoc
          · exact ⟨d, hdrest, hdn⟩
        have := ih hrest
        simp [updateManifest, hdoc, this.1, this.2.1, this.2.2.1, this.2.2.2]

lemma updateManifest_snd (docId name path : String) (now : Nat)
    (stats : Stats) :
    ∀ documents : List DocRecord,
      (updateManifest documents docId name path now stats).2.uploadedAt = now
      ∧ (updateManifest documents docId name path now stats).2.stats = stats := by
  intro documents
  induction documents with
  | nil => simp [updateManifest]
  | cons doc rest ih =>
      by_cases hdoc : doc.name = name
      · simp [updateManifest, hdoc]
      · simp [updateManifest, hdoc, ih.1, ih.2]

lemma updateManifest_snd_mem (docId name path : String) (now : Nat)
    (stats : Stats) :
    ∀ documents : List DocRecord,
      (updateManifest documents docId name path now stats).2
        ∈ (updateManifest documents docId name path now stats).1 := by
  intro documents
  induction documents with
  | nil => simp [updateManifest]
  | cons doc rest ih =>
      by_cases hdoc : doc.name = name
      · simp [updateManifest, hdoc]
      · simp [updateManifest, hdoc]
        right
        exact ih

/-- Claim C6: re-ingesting a file whose display name matches an existing
manifest record updates that record in place — same manifest length (no
duplicate appended), ids, names and paths unchanged, and the reported record
carries the new upload timestamp and statistics and is a member of the new
manifest; for a name not present, the new manifest is exactly the old one
with one new record appended. -/
theorem manifest_upsert_no_duplicate (documents : List DocRecord)
    (docId name path : String) (now : Nat) (stats : Stats) :
    ((∃ d ∈ documents, d.name = name) →
      (updateManifest documents docId name path now stats).1.length
          = documents.length
      ∧ (updateManifest documents docId name path now stats).1.map DocRecord.id
          = documents.map DocRecord.id
      ∧ (updateManifest documents docId name path now stats).1.map DocRecord.name
          = documents.map DocRecord.name
      ∧ (updateManifest documents docId name path now stats).2.uploadedAt = now
      ∧ (updateManifest documents docId name path now stats).2.stats = stats
      ∧ (updateManifest documents docId name path now stats).2
          ∈ (updateManifest documents docId name path now stats).1)
    ∧ ((∀ d ∈ documents, d.name ≠ name) →
      (updateManifest documents docId name path now stats).1
        = documents ++
            [{ id := docId, name := name, path := path, uploadedAt := now,
               preview := indexedPreview stats, stats := stats }]) := by
  constructor
  · intro h
    have h1 := updateManifest_of_mem docId name path now stats documents h
    have h2 := updateManifest_snd docId name path now stats documents
    have h3 := updateManifest_snd_mem docId name path now stats documents
    exact ⟨h1.1, h1.2.1, h1.2.2.1, h2.1, h2.2, h3⟩
  · intro h
    rw [updateManifest_of_not_mem docId name path now stats documents h]

def statsTwo : Stats := { images := 0, tables := 0, texts := 2 }

def docReport : DocRecord :=
  { id := "id-original", name := "report.pdf", path := "uploads/id-original.pdf",
    uploadedAt := 1, preview := "Indexed with 1 texts, 0 images, 0 tables.",
    stats := { images := 0, tables := 0, texts := 1 } }

/-- Witness for C6: a one-record manifest re-ingested under the same display
name keeps length 1; a fresh name appends exactly one record. -/
theorem manifest_upsert_no_duplicate_witness :
    (updateManifest [docReport] "id-new" "report.pdf" "uploads/id-new.pdf" 5 statsTwo).1.length = 1
    ∧ (updateManifest [] "id-new" "other.pdf" "uploads/id-new.pdf" 5 statsTwo).1.length = 1 := by
  constructor
  · exact ((manifest_upsert_no_duplicate [docReport] "id-new" "report.pdf"
      "uploads/id-new.pdf" 5 statsTwo).1 ⟨docReport, by simp, rfl⟩).1
  · rw [(manifest_upsert_no_duplicate [] "id-new" "other.pdf"
      "uploads/id-new.pdf" 5 statsTwo).2 (by simp)]
    rfl

/-! ## C9 — conversation created after re-ingestion

After the manifest update, index_file_streaming (src/backend/main.py lines
547-558) always creates the new conversation with document_id equal to the
doc_id parameter — the fresh uuid4 generated by upload_file_endpoint (lines
806-827) — even when the manifest hit an existing record and kept its
original id. -/

structure Chat where
  id : String
  document_id : String
  created_at : Nat
  title : String
  messages : List String
deriving DecidableEq, Repr

/-- The manifest update followed by conversation creation, as performed by
index_file_streaming: returns the new manifest, the new chat map (chat id
paired with record), and the created conversation. -/
def manifestAndChat (documents : List DocRecord) (chats : List (String × Chat))
    (docId name path : String) (now : Nat) (stats : Stats) (chatId : String) :
    List DocRecord × List (String × Chat) × Chat :=
  let r := updateManifest documents docId name path now stats
  let newChat : Chat :=
    { id := chatId, document_id := docId, created_at := now, title := name,
      messages := [] }
  (r.1, chats ++ [(chatId, newChat)], newChat)

/-- Claim C9: when the uploaded display name already exists in the manifest,
the conversation created by the ingestion links to the freshly generated
upload id while the manifest keeps the original record ids and paths, so the
new conversation links to no record of the updated manifest. -/
theorem reingest_conversation_orphan (documents : List DocRecord)
    (chats : List (String × Chat)) (docId name path : String) (now : Nat)
    (stats : Stats) (chatId : String)
    (hname : ∃ d ∈ documents, d.name = name)
    (hfresh : ∀ d ∈ documents, d.id ≠ docId) :
    (manifestAndChat documents chats docId name path now stats chatId).2.2.document_id
        = docId
    ∧ (manifestAndChat documents chats docId name path now stats chatId).1.map DocRecord.id
        = documents.map DocRecord.id
    ∧ (manifestAndChat documents chats docId name path now stats chatId).1.map DocRecord.path
        = documents.map DocRecord.path
    ∧ ∀ d ∈ (manifestAndChat documents chats docId name path now stats chatId).1,
        d.id ≠ (manifestAndChat documents chats docId name path now stats chatId).2.2.document_id := by
  have h := updateManifest_of_mem docId name path now stats documents hname
  refine ⟨rfl, h.2.1, h.2.2.2, ?_⟩
  intro d hd
  have hids : d.id ∈ documents.map DocRecord.id := by
    rw [← h.2.1]
    exact List.mem_map_of_mem DocRecord.id hd
  rcases List.mem_map.mp hids with ⟨d0, hd0, hid⟩
  show d.id ≠ docId
  rw [← hid]
  exact hfresh d0 hd0

/-- Witness for C9: re-ingesting report.pdf with fresh upload id id-new
creates a conversation whose linked document id matches no manifest record. -/
theorem reingest_conversation_orphan_witness :
    (manifestAndChat [docReport] [] "id-new" "report.pdf" "uploads/id-new.pdf" 5 statsTwo "chat-1").2.2.document_id
      = "id-new"
    ∧ ∀ d ∈ (manifestAndChat [docReport] [] "id-new" "report.pdf" "uploads/id-new.pdf" 5 statsTwo "chat-1").1,
        d.id ≠ "id-new" := by
  have h := reingest_conversation_orphan [docReport] [] "id-new" "report.pdf"
    "uploads/id-new.pdf" 5 statsTwo "chat-1" ⟨docReport, by simp, rfl⟩
    (by intro d hd; simp at hd; rw [hd]; simp [docReport])
  exact ⟨h.1, fun d hd => h.1 ▸ h.2.2.2 d hd⟩

/-! ## C7 — summarization fallbacks

summarize_image_async and summarize_table_async (src/backend/main.py lines
313-344) wrap the model call in try/except and return a deterministic
fallback on failure; summarize_text_async (lines 346-357) makes no model
call at all.  The model call outcome is an Except value: ok with the model
content, or error with the exception message. -/

inductive RawElem where
  | image (b64 : String)
  | table (html txt : String)
  | text (chunk : String) (page : Option Nat) (chunkIdx : Nat)
deriving DecidableEq, Repr

/-- Python slicing s[:n]: the first n characters of s. -/
def pySlice (s : String) (n : Nat) : String :=
  String.mk (s.data.take n)

def summarize_image_async (llmResult : Except String String) : String :=
  match llmResult with
  | Except.ok content => content
  | Except.error _ => "Image content could not be analyzed."

def summarize_table_async (_tableHtml tableText : String)
    (llmResult : Except String String) : String :=
  match llmResult with
  | Except.ok content => content
  | Except.error _ => "Table content: " ++ pySlice tableText 500

def summarize_text_async (chunk : String) (page : Option Nat)
    (chunkIdx : Nat) : String :=
  if page = some 1 ∧ chunkIdx = 0 then
    "This document/research paper discusses: " ++ chunk
  else
    chunk

/-- Dispatch of one element to its per-kind summarizer; the model outcome is
ignored for text elements, which never call the model. -/
def summarizeElem (e : RawElem) (r : Except String String) : String :=
  match e with
  | RawElem.image b => summarize_image_async (match b with | _ => r)
  | RawElem.table h t => summarize_table_async h t r
  | RawElem.text c p i => summarize_text_async c p i

/-- The summarization batch: every element gets its own model call outcome,
and each summary is computed independently from its element and outcome. -/
def summarizeBatch (elems : List RawElem)
    (results : List (Except String String)) : List String :=
  (elems.zip results).map (fun p => summarizeElem p.1 p.2)

lemma summarizeBatch_getD :
    ∀ (elems : List RawElem) (results : List (Except String String)) (i : Nat),
      i < elems.length → i < results.length →
      (summarizeBatch elems results).getD i ("")
        = summarizeElem (elems.getD i (RawElem.text ("") none 0))
            (results.getD i (Except.ok (""))) := by
  intro elems
  induction elems with
  | nil => intro results i hi _; simp at hi
  | cons e rest ih =>
      intro results i hi hr
      match results with
      | [] => simp at hr
      | r :: rs =>
          match i with
          | 0 => simp [summarizeBatch]
          | Nat.succ j =>
              have h1 : j < rest.length := by simpa using hi
              have h2 : j < rs.length := by simpa using hr
              simpa [summarizeBatch] using ih rs j h1 h2

/-- Claim C7: a summarization failure for one element degrades to a
deterministic fallback (a fixed marker for images, the truncated original
text for tables) instead of raising, and the batch is never aborted: every
element still receives a summary, computed only from its own content and its
own call outcome. -/
theorem summarize_failure_fallback (elems : List RawElem)
    (results : List (Except String String))
    (hlen : results.length = elems.length) :
    (summarizeBatch elems results).length = elems.length
    ∧ (∀ i : Nat, i < elems.length →
        (summarizeBatch elems results).getD i ("")
          = summarizeElem (elems.getD i (RawElem.text ("") none 0))
              (results.getD i (Except.ok (""))))
    ∧ (∀ msg : String,
        summarize_image_async (Except.error msg)
          = "Image content could not be analyzed.")
    ∧ (∀ (h t msg : String),
        summarize_table_async h t (Except.error msg)
          = "Table content: " ++ pySlice t 500) := by
  refine ⟨?_, ?_, fun _ => rfl, fun _ _ _ => rfl⟩
  · simp [summarizeBatch, hlen]
  · intro i hi
    exact summarizeBatch_getD elems results i hi (hlen ▸ hi)

/-- Witness for C7: a batch of one image, one table and one text chunk where
the image and table calls fail still yields three summaries, with the two
deterministic fallbacks in place. -/
theorem summarize_failure_fallback_witness :
    summarizeBatch
        [RawElem.image ("data:image/png;base64,x"),
         RawElem.table ("<table></table>") ("totals"),
         RawElem.text ("body text") (some 2) 1]
        [Except.error ("timeout"), Except.error ("timeout"), Except.ok ("unused")]
      = ["Image content could not be analyzed.", "Table content: totals", "body text"] := by
  have h := summarize_failure_fallback
    [RawElem.image ("data:image/png;base64,x"),
     RawElem.table ("<table></table>") ("totals"),
     RawElem.text ("body text") (some 2) 1]
    [Except.error ("timeout"), Except.error ("timeout"), Except.ok ("unused")]
    (by rfl)
  have h0 := h.2.1 0 (by decide)
  have h1 := h.2.1 1 (by decide)
  have h2 := h.2.1 2 (by decide)
  simp [summarizeElem, summarize_image_async, summarize_table_async,
    summarize_text_async] at h0 h1 h2
  simp [summarizeBatch, summarizeElem, summarize_image_async,
    summarize_table_async, summarize_text_async]
  rfl

/-! ## Answer streamer — C3, C4, C5

query_rag (src/backend/main.py lines 565-646) and answer_generator (lines
648-757) both start from the similarity search result, a list of summary
documents; each is modeled by its page content and the doc_id carried in its
metadata (none when absent).  The generative model is a collaborator: its
streamed run is an outcome value, either ok with the list of streamed content
fragments, or error with the fragments streamed before the failure and the
exception message. -/

structure SDoc where
  pageContent : String
  docId : Option String
deriving DecidableEq, Repr

inductive StreamOutcome where
  | ok (parts : List String)
  | error (partsBefore : List String) (msg : String)
deriving DecidableEq, Repr

/-- docstore.mget: per-key lookup returning none for missing keys. -/
def mget (store : List (String × PElem)) (ids : List String) :
    List (Option PElem) :=
  ids.map (fun i => (store.find? (fun p => p.1 == i)).map Prod.snd)

/-- Python substring membership: needle in hay. -/
def containsSub (hay needle : String) : Bool :=
  decide (needle.data <:+: hay.data)

def msgIndexErr : String :=
  "I apologize, but I encountered an issue processing your request. This may be due to content safety filters or an empty response from the AI. Please try rephrasing your question or asking something different."

def msgSafety : String :=
  "I apologize, but this query was blocked by content safety filters. Please try rephrasing your question."

def msgGeneric : String :=
  "I encountered an error while processing your request. Please try again or rephrase your question."

def apologyMsg : String :=
  "I apologize, but I couldn\x27t generate a response. Please try rephrasing your question or provide more context."

/-- Python str.upper(), character by character. -/
def pyUpper (s : String) : String :=
  String.mk (s.data.map Char.toUpper)

def indexPat (msg : String) : Bool :=
  containsSub msg ("list index out of range") || containsSub msg ("IndexError")

def safetyPat (msg : String) : Bool :=
  containsSub (pyUpper msg) ("SAFETY") || containsSub (pyUpper msg) ("BLOCKED")

/-- The per-error-message classification of answer_generator (src/backend/
main.py lines 720-733). -/
def errorResponse (msg : String) : String :=
  if indexPat msg then msgIndexErr
  else if safetyPat msg then msgSafety
  else msgGeneric

/-- The content fragments the stream loop forwards: every nonempty fragment
the model produced (the loop guards with: if content). -/
def streamedChunks : StreamOutcome → List String
  | StreamOutcome.ok parts => parts.filter (fun s => s ≠ "")
  | StreamOutcome.error parts _ => parts.filter (fun s => s ≠ "")

/-- full_answer right after the stream loop: the concatenated fragments on
success, the substituted error response on failure (the source overwrites the
partial answer with it). -/
def rawAnswer : StreamOutcome → String
  | StreamOutcome.ok parts => String.join (parts.filter (fun s => s ≠ ""))
  | StreamOutcome.error _ msg => errorResponse msg

/-- The single substituted fallback fragment on a mid-stream error. -/
def fallbackStrings : StreamOutcome → List String
  | StreamOutcome.ok _ => []
  | StreamOutcome.error _ msg => [errorResponse msg]

/-- Python str.strip(): leading and trailing whitespace removed. -/
def pyStrip (s : String) : String :=
  String.mk (((s.data.dropWhile Char.isWhitespace).reverse.dropWhile
    Char.isWhitespace).reverse)

/-- The fixed apology fragment substituted when no content was produced
(the source checks: if not full_answer or full_answer.strip() == ""). -/
def emptyStrings (o : StreamOutcome) : List String :=
  if pyStrip (rawAnswer o) = "" then [apologyMsg] else []

/-- full_answer as persisted after the empty-content check. -/
def finalAnswer (o : StreamOutcome) : String :=
  if pyStrip (rawAnswer o) = "" then apologyMsg else rawAnswer o

/-- The server-sent events of one query-answer stream. -/
inductive Event where
  | context (chunks : List SDoc)
  | chunk (content : String)
  | endEvent
deriving DecidableEq, Repr

/-- All chunk events between the context event and the end event. -/
def middleEvents (o : StreamOutcome) : List Event :=
  ((streamedChunks o ++ fallbackStrings o) ++ emptyStrings o).map Event.chunk

def pageLabel : Option Nat → String
  | some n => toString n
  | none => "Unknown"

/-- The context block assembled from the resolved text and table elements
(answer_generator lines 684-695): section headers, elements joined with blank
lines, and the substitute string when nothing resolved. -/
def buildContext (texts tables : List String) : String :=
  let parts :=
    (if texts.isEmpty then [] else ["=== DOCUMENT TEXT ===", String.intercalate "\n\n" texts])
    ++ (if tables.isEmpty then []
        else ["\n\n=== TABLES AND STRUCTURED DATA ===", String.intercalate "\n\n" tables])
  if parts.isEmpty then "No context available." else String.intercalate "\n\n" parts

structure GenResult where
  events : List Event
  llmInvoked : Bool
  savedAnswer : String
  contextUsed : String
deriving DecidableEq, Repr

/-- answer_generator (src/backend/main.py lines 648-757): yields the context
event, resolves the matched ids against the Content Store, builds the
multimodal context, streams the model (always invoked — there is no
empty-match short circuit on this path), substitutes fallback fragments on
error or empty output, persists the final answer, and yields the end
event. -/
def answer_generator (docs : List SDoc) (store : List (String × PElem))
    (outcome : StreamOutcome) : GenResult :=
  let doc_ids := docs.filterMap SDoc.docId
  let originals := (mget store doc_ids).filterMap (fun x => x)
  let texts := (originals.filter (fun e => e.kind == EKind.text)).map
    (fun e => "[From Page " ++ pageLabel e.page ++ "]\n" ++ e.original)
  let tables := (originals.filter (fun e => e.kind == EKind.table)).map
    (fun e => "[From Page " ++ pageLabel e.page ++ "]\n" ++ e.original)
  { events := Event.context docs :: (middleEvents outcome ++ [Event.endEvent]),
    llmInvoked := true,
    savedAnswer := finalAnswer outcome,
    contextUsed := buildContext texts tables }

structure RagResult where
  answer : String
  chunks : List SDoc
  llmInvoked : Bool
deriving DecidableEq, Repr

/-- query_rag (src/backend/main.py lines 565-646): short-circuits with the
explicit nothing-found answer when the similarity search returns no summary
documents (and again when none of them carries a doc_id); otherwise resolves
the originals and invokes the model, whose answer is the llmAnswer
collaborator input. -/
def query_rag (summaryDocs : List SDoc) (_store : List (String × PElem))
    (llmAnswer : String) : RagResult :=
  if summaryDocs.isEmpty then
    { answer := "No relevant documents found for your query.",
      chunks := [], llmInvoked := false }
  else
    let doc_ids := summaryDocs.filterMap SDoc.docId
    if doc_ids.isEmpty then
      { answer := "No relevant documents found for your query.",
        chunks := summaryDocs, llmInvoked := false }
    else
      { answer := llmAnswer, chunks := summaryDocs, llmInvoked := true }

lemma errorResponse_cases (msg : String) :
    errorResponse msg = msgIndexErr ∨ errorResponse msg = msgSafety
      ∨ errorResponse msg = msgGeneric := by
  unfold errorResponse
  split
  · exact Or.inl rfl
  · split
    · exact Or.inr (Or.inl rfl)
    · exact Or.inr (Or.inr rfl)

lemma pyStrip_errorResponse_ne (msg : String) :
    ¬ (pyStrip (errorResponse msg) = "") := by
  rcases errorResponse_cases msg with h | h | h <;> rw [h] <;> decide

/-- Claim C3 (counterexample to the claim as stated): in the live streaming
path, a query whose similarity search returns zero summary matches still
invokes the generative model — answer_generator builds the substitute
context and streams the model unconditionally. -/
theorem streaming_empty_matches_invokes_model :
    (answer_generator [] [] (StreamOutcome.ok ["Revenue grew."])).llmInvoked = true
    ∧ (answer_generator [] [] (StreamOutcome.ok ["Revenue grew."])).contextUsed
        = "No context available." := by
  exact ⟨rfl, rfl⟩

/-- Claim C3 (amended): for a query with zero summary matches, query_rag
returns the explicit nothing-found result without invoking the generative
model and without raising; the streaming path answer_generator instead still
invokes the model, with the substitute context, and also raises no
exception — its event stream opens with the context event and terminates
with the end event. -/
theorem query_empty_short_circuit (store : List (String × PElem))
    (llmAnswer : String) (outcome : StreamOutcome) :
    query_rag [] store llmAnswer
      = { answer := "No relevant documents found for your query.",
          chunks := [], llmInvoked := false }
    ∧ (answer_generator [] store outcome).llmInvoked = true
    ∧ (answer_generator [] store outcome).contextUsed = "No context available."
    ∧ ∃ mids : List String,
        (answer_generator [] store outcome).events
          = Event.context [] :: (mids.map Event.chunk ++ [Event.endEvent]) := by
  refine ⟨rfl, rfl, rfl,
    ⟨(streamedChunks outcome ++ fallbackStrings outcome) ++ emptyStrings outcome, rfl⟩⟩

/-- Claim C5: the event sequence of every query-answer stream is exactly one
context event first, then zero or more chunk events, then exactly one
terminal end event. -/
theorem answer_stream_event_order (docs : List SDoc)
    (store : List (String × PElem)) (outcome : StreamOutcome) :
    ∃ mids : List String,
      (answer_generator docs store outcome).events
        = Event.context docs :: (mids.map Event.chunk ++ [Event.endEvent]) :=
  ⟨(streamedChunks outcome ++ fallbackStrings outcome) ++ emptyStrings outcome, rfl⟩

/-- Claim C4: when the generative model raises mid-stream, the stream
substitutes exactly one user-facing fallback fragment — the content-safety
message exactly when the message pattern indicates a safety block (and no
index-error pattern fired first), one of the fixed failure messages
otherwise — persists it as the answer, and terminates cleanly with the end
event instead of propagating the raw error; and when the model produces no
content at all, the fixed apology fragment is substituted. -/
theorem stream_error_single_fallback (docs : List SDoc)
    (store : List (String × PElem)) (parts : List String) (msg : String) :
    (answer_generator docs store (StreamOutcome.error parts msg)).events
      = Event.context docs ::
          ((parts.filter (fun s => s ≠ "")).map Event.chunk
            ++ [Event.chunk (errorResponse msg), Event.endEvent])
    ∧ (answer_generator docs store (StreamOutcome.error parts msg)).savedAnswer
        = errorResponse msg
    ∧ (errorResponse msg = msgIndexErr ∨ errorResponse msg = msgSafety
        ∨ errorResponse msg = msgGeneric)
    ∧ ((indexPat msg = false ∧ safetyPat msg = true) ↔ errorResponse msg = msgSafety)
    ∧ (answer_generator docs store (StreamOutcome.ok [])).events
        = [Event.context docs, Event.chunk apologyMsg, Event.endEvent] := by
  have hne := pyStrip_errorResponse_ne msg
  refine ⟨?_, ?_, errorResponse_cases msg, ?_, ?_⟩
  · simp [answer_generator, middleEvents, streamedChunks, fallbackStrings,
      emptyStrings, rawAnswer, hne]
  · simp [answer_generator, finalAnswer, rawAnswer, hne]
  · constructor
    · rintro ⟨hi, hs⟩
      simp [errorResponse, hi, hs]
    · intro h
      by_cases hi : indexPat msg = true
      · exfalso
        simp [errorResponse, hi] at h
        exact absurd h (by decide)
      · have hi2 : indexPat msg = false := by
          cases hx : indexPat msg
          · rfl
          · exact absurd hx hi
        by_cases hs : safetyPat msg = true
        · exact ⟨hi2, hs⟩
        · exfalso
          have hs2 : safetyPat msg = false := by
            cases hx : safetyPat msg
            · rfl
            · exact absurd hx hs
          simp [errorResponse, hi2, hs2] at h
          exact absurd h (by decide)
  · rfl

/-- Witness for C4: a concrete stream that fails with a safety-block error
after one fragment substitutes exactly the content-safety fallback and ends
cleanly. -/
theorem stream_error_single_fallback_witness :
    (answer_generator [] []
        (StreamOutcome.error ["partial "] ("response BLOCKED by safety filters"))).events
      = [Event.context [], Event.chunk ("partial "), Event.chunk msgSafety,
         Event.endEvent] := by
  have h := stream_error_single_fallback [] [] ["partial "]
    ("response BLOCKED by safety filters")
  have hcls : errorResponse ("response BLOCKED by safety filters") = msgSafety :=
    h.2.2.2.1.mp ⟨by decide, by decide⟩
  rw [h.1, hcls]
  rfl

/-! ## C10 — chat deletion frame effect

delete_chat_endpoint (src/backend/main.py lines 906-962) removes the chat
record; when no surviving chat references the deleted chat's document it also
pops the document's manifest record and removes its backing file.  It never
touches the FAISS index or the docstore.  The application state gathers the
chat map, the manifest, the set of files on disk, and the two stores. -/

structure AppState where
  chats : List (String × Chat)
  documents : List DocRecord
  files : List String
  stores : Stores
deriving DecidableEq, Repr

/-- documents.pop(i) at the first record matching the id, as in the
for-loop of delete_chat_endpoint; returns the remaining manifest and the
popped record when found. -/
def popDocument : List DocRecord → String → List DocRecord × Option DocRecord
  | [], _ => ([], none)
  | d :: rest, documentId =>
      if d.id = documentId then (rest, some d)
      else
        let r := popDocument rest documentId
        (d :: r.1, r.2)

/-- delete_chat_endpoint: 404 when the chat id is unknown; otherwise the chat
is removed, and the document record and backing file are removed exactly when
no other chat references the document. -/
def delete_chat (st : AppState) (chatId : String) : Except String AppState :=
  match st.chats.find? (fun p => p.1 == chatId) with
  | none => Except.error "Chat session not found."
  | some entry =>
      let chats2 := st.chats.filter (fun p => p.1 ≠ chatId)
      let documentId := entry.2.document_id
      if chats2.any (fun p => p.2.document_id == documentId) then
        Except.ok { st with chats := chats2 }
      else
        let r := popDocument st.documents documentId
        match r.2 with
        | some doc =>
            Except.ok { chats := chats2, documents := r.1,
                        files := st.files.filter (fun f => f ≠ doc.path),
                        stores := st.stores }
        | none => Except.ok { st with chats := chats2 }

lemma popDocument_subset (documentId : String) :
    ∀ documents : List DocRecord, ∀ d ∈ (popDocument documents documentId).1,
      d ∈ documents := by
  intro documents
  induction documents with
  | nil => intro d hd; simp [popDocument] at hd
  | cons doc rest ih =>
      intro d hd
      by_cases h : doc.id = documentId
      · simp [popDocument, h] at hd
        exact List.mem_cons_of_mem doc hd
      · simp [popDocument, h] at hd
        rcases hd with rfl | hd
        · exact List.mem_cons_self d rest
        · exact List.mem_cons_of_mem doc (ih d hd)

/-- Claim C10: every successful chat deletion leaves the Similarity Index
and the Content Store unchanged — the deleted document's element summaries
and originals stay present, and every Content Store lookup returns exactly
what it returned before — while the chat map, the document manifest and the
files on disk only ever lose entries. -/
theorem delete_chat_preserves_stores (st : AppState) (chatId : String)
    (st2 : AppState) (h : delete_chat st chatId = Except.ok st2) :
    st2.stores = st.stores
    ∧ (∀ ids : List String, mget st2.stores.store ids = mget st.stores.store ids)
    ∧ (∀ p ∈ st2.chats, p ∈ st.chats)
    ∧ (∀ d ∈ st2.documents, d ∈ st.documents)
    ∧ (∀ f ∈ st2.files, f ∈ st.files) := by
  unfold delete_chat at h
  cases hfind : st.chats.find? (fun p => p.1 == chatId) with
  | none => rw [hfind] at h; exact absurd h (by simp)
  | some entry =>
      rw [hfind] at h
      simp only at h
      by_cases hany : st.chats.filter (fun p => p.1 ≠ chatId)
          |>.any (fun p => p.2.document_id == entry.2.document_id)
      · rw [if_pos hany] at h
        cases h
        refine ⟨rfl, fun _ => rfl, ?_, fun d hd => hd, fun f hf => hf⟩
        intro p hp
        exact List.mem_of_mem_filter hp
      · rw [if_neg hany] at h
        cases hpop : (popDocument st.documents entry.2.document_id).2 with
        | some doc =>
            rw [hpop] at h
            cases h
            refine ⟨rfl, fun _ => rfl, ?_, ?_, ?_⟩
            · intro p hp
              exact List.mem_of_mem_filter hp
            · intro d hd
              exact popDocument_subset entry.2.document_id st.documents d hd
            · intro f hf
              exact List.mem_of_mem_filter hf
        | none =>
            rw [hpop] at h
            cases h
            refine ⟨rfl, fun _ => rfl, ?_, fun d hd => hd, fun f hf => hf⟩
            intro p hp
            exact List.mem_of_mem_filter hp

def chatOne : Chat :=
  { id := "chat-1", document_id := "id-original", created_at := 1,
    title := "report.pdf", messages := [] }

def stateOne : AppState :=
  { chats := [("chat-1", chatOne)],
    documents := [docReport],
    files := ["uploads/id-original.pdf"],
    stores := indexElements freshStores [elemAlpha, elemBeta] }

/-- Witness for C10: deleting the last chat referencing the only document
removes the chat, the manifest record and the file, and leaves both stores
untouched. -/
theorem delete_chat_preserves_stores_witness :
    (delete_chat stateOne "chat-1"
      = Except.ok { chats := [], documents := [], files := [],
                    stores := indexElements freshStores [elemAlpha, elemBeta] })
    ∧ ({ chats := [], documents := [], files := [],
         stores := indexElements freshStores [elemAlpha, elemBeta] } : AppState).stores
        = stateOne.stores := by
  constructor
  · rfl
  · exact (delete_chat_preserves_stores stateOne "chat-1"
      { chats := [], documents := [], files := [],
        stores := indexElements freshStores [elemAlpha, elemBeta] }
      (by rfl)).1.symm
